import Mathlib

/-!
Shallow embedding of the OAuth token lifecycle manager of the LifeOps
repository (src/fitbit_auth.py, with the variant helpers in
src/pull_fitbit_heart.py and src/pull_fitbit_steps.py).

Modelling conventions:
* machine time is `Int` seconds (UTC instants); `timedelta(minutes=2)` is 120;
* an ISO-8601 timestamp string is modelled by `TimeStr`: either a string that
  parses to an instant (`TimeStr.valid t`) or a string that fails to parse
  (`TimeStr.invalid s`) — `datetime.fromisoformat` itself is an external
  library call, only its success/failure and the parsed instant matter here;
* Python string truthiness (`if not v`) is `truthy : Option String → Bool`;
* the JSON token-cache dict is the record `TokenCache` over the keys the
  program reads and writes; the on-disk file is `CacheFile` (absent, corrupt
  i.e. existing but unparseable, or a parsed record);
* the network is a parameter `HttpResp` (status, text, parsed JSON body);
* `get_valid_access_token` is a pure function of the environment, the clock,
  the provider response and the initial cache file, returning the outcome
  together with the final cache file, the number of token-endpoint network
  calls, the number of cache-file rewrites, and whether the lock marker file
  is still present at the end.
-/

namespace LifeOps

/-- Python truthiness of an `Optional[str]`: `None` and `""` are falsy. -/
def truthy : Option String → Bool
  | none => false
  | some s => !s.isEmpty

/-- An ISO timestamp string: either parses to an instant, or fails to parse. -/
inductive TimeStr where
  | valid (t : Int)
  | invalid (s : String)
deriving DecidableEq, Repr

/-- Truthiness of a timestamp string: a parseable ISO string is nonempty. -/
def TimeStr.truthy : TimeStr → Bool
  | .valid _ => true
  | .invalid s => !s.isEmpty

/-- Truthiness of an optional timestamp string. -/
def truthyT : Option TimeStr → Bool
  | none => false
  | some ts => ts.truthy

/-- `iso_to_dt` (src/fitbit_auth.py line 38): parse an ISO string;
`datetime.fromisoformat` raises on a malformed string, modelled as `none`. -/
def iso_to_dt : TimeStr → Option Int
  | .valid t => some t
  | .invalid _ => none

/-- `dt_to_iso` (src/fitbit_auth.py line 42): format an instant (always
produces a parseable string). -/
def dt_to_iso (t : Int) : TimeStr := .valid t

/-- The token-cache JSON record, over the keys the program reads or writes
(src/fitbit_auth.py lines 112-119, 137-144, 163-190). Every field is
optional: a JSON `null` and an absent key are both `none` (the program only
reads keys through `dict.get`, which does not distinguish them). -/
structure TokenCache where
  refresh_token : Option String := none
  access_token : Option String := none
  user_id : Option String := none
  expires_at_utc : Option TimeStr := none
  expires_in : Option Int := none
  seeded_at_utc : Option TimeStr := none
  reseeded_at_utc : Option TimeStr := none
  refreshed_at_utc : Option TimeStr := none
  note : Option String := none
deriving DecidableEq, Repr

/-- Python dict emptiness (`if not cache`, src/fitbit_auth.py line 160): the
record with every tracked key absent. -/
def TokenCache.isEmptyDict (c : TokenCache) : Bool :=
  c.refresh_token == none && c.access_token == none && c.user_id == none &&
  c.expires_at_utc == none && c.expires_in == none && c.seeded_at_utc == none &&
  c.reseeded_at_utc == none && c.refreshed_at_utc == none && c.note == none

/-- State of the token-cache file on disk. -/
inductive CacheFile where
  | absent
  | corrupt (raw : String)
  | valid (c : TokenCache)
deriving DecidableEq, Repr

/-- `TOKEN_CACHE_PATH.exists()`: true for a corrupt file too. -/
def CacheFile.existsOnDisk : CacheFile → Bool
  | .absent => false
  | .corrupt _ => true
  | .valid _ => true

/-- The refresh token persisted in the cache file, when the file holds a
parsed record. -/
def CacheFile.refreshToken : CacheFile → Option String
  | .valid c => c.refresh_token
  | _ => none

/-- The typed failures raised by the lifecycle manager (each `RuntimeError`
raise site, plus the `json.loads` decode error and the lock timeout). -/
inductive AuthError where
  | missingEnv (name : String)
  | cacheCorrupt (raw : String)
  | cacheMissingOrUnreadable
  | missingRefreshToken
  | refreshRejected (status : Nat) (body : String)
  | incompleteRefreshResponse
  | missingAccessOrUserId
  | lockTimeout
deriving DecidableEq, Repr

/-- The environment variables the manager reads (.env via `load_dotenv`). -/
structure DotEnv where
  FITBIT_CLIENT_ID : Option String := none
  FITBIT_CLIENT_SECRET : Option String := none
  FITBIT_REFRESH_TOKEN : Option String := none
  FITBIT_USER_ID : Option String := none
deriving DecidableEq, Repr

/-- `require_env` (src/fitbit_auth.py lines 46-50): returns the value when
truthy, raises `RuntimeError(f"Missing {name} ...")` otherwise. -/
def require_env (v : Option String) (name : String) : Except AuthError String :=
  if truthy v then .ok (v.getD "") else .error (.missingEnv name)

/-- `load_token_cache` (src/fitbit_auth.py lines 91-94): `None` when the file
is absent; `json.loads` raises (uncaught) on an unparseable file. -/
def load_token_cache : CacheFile → Except AuthError (Option TokenCache)
  | .absent => .ok none
  | .corrupt raw => .error (.cacheCorrupt raw)
  | .valid c => .ok (some c)

/-- `load_token_cache` in the pull jobs (src/pull_fitbit_heart.py lines
132-138, src/pull_fitbit_steps.py lines 139-145): the `json.loads` failure is
caught and `None` is returned, indistinguishable from an absent file. -/
def load_token_cache_pull : CacheFile → Option TokenCache
  | .absent => none
  | .corrupt _ => none
  | .valid c => some c

/-- The data directory as seen by `save_token_cache`: the canonical cache
file plus the `.json.tmp` staging file. -/
structure TokenFS where
  canonical : CacheFile
  tmp : Option TokenCache
deriving DecidableEq, Repr

/-- First half of `save_token_cache` (src/fitbit_auth.py line 100): serialize
the record into the temporary file; the canonical file is untouched. -/
def save_write_tmp (tok : TokenCache) (fs : TokenFS) : TokenFS :=
  { fs with tmp := some tok }

/-- Second half of `save_token_cache` (src/fitbit_auth.py line 101):
`tmp.replace(TOKEN_CACHE_PATH)`, an atomic rename of the temporary file over
the canonical path. -/
def save_replace (fs : TokenFS) : TokenFS :=
  match fs.tmp with
  | some tok => { canonical := .valid tok, tmp := none }
  | none => fs

/-- `save_token_cache` (src/fitbit_auth.py lines 97-101): write the temporary
file, then atomically rename it over the canonical path. -/
def save_token_cache (tok : TokenCache) (fs : TokenFS) : TokenFS :=
  save_replace (save_write_tmp tok fs)

/-- The effect of a completed `save_token_cache` on the canonical file alone
(used by the run model, where each completed save is one atomic rewrite). -/
def save_cache_atomic (tok : TokenCache) : CacheFile := .valid tok

/-- `seed_cache_from_env_once` (src/fitbit_auth.py lines 104-119): seed the
cache only if the file is missing; returns the resulting cache file and the
number of cache writes performed. -/
def seed_cache_from_env_once (env : DotEnv) (now : Int) (fs : CacheFile) :
    Except AuthError (CacheFile × Nat) :=
  if fs.existsOnDisk then .ok (fs, 0)
  else
    match require_env env.FITBIT_REFRESH_TOKEN "FITBIT_REFRESH_TOKEN" with
    | .error e => .error e
    | .ok refresh =>
        .ok (save_cache_atomic
          { refresh_token := some refresh
            access_token := none
            user_id := env.FITBIT_USER_ID
            expires_at_utc := none
            seeded_at_utc := some (dt_to_iso now)
            note := some "Seeded from .env once. From now on, token cache is source of truth." },
          1)

/-- `seed_refresh_token_from_env_if_needed` (src/pull_fitbit_heart.py lines
148-174): always requires the env refresh token; seeds when the file is
missing, and reseeds (clearing the access token and expiry) when the cached
refresh token differs from the env value. -/
def seed_refresh_token_from_env_if_needed (env : DotEnv) (now : Int)
    (fs : CacheFile) : Except AuthError (CacheFile × Nat) :=
  match require_env env.FITBIT_REFRESH_TOKEN "FITBIT_REFRESH_TOKEN" with
  | .error e => .error e
  | .ok refresh_env =>
    if !fs.existsOnDisk then
      .ok (save_cache_atomic
        { refresh_token := some refresh_env
          access_token := none
          user_id := env.FITBIT_USER_ID
          expires_at_utc := none
          seeded_at_utc := some (dt_to_iso now)
          note := some "Seeded from .env. Will rotate on first refresh." },
        1)
    else
      let cache := (load_token_cache_pull fs).getD {}
      if cache.refresh_token != some refresh_env then
        .ok (save_cache_atomic
          { cache with
            refresh_token := some refresh_env
            access_token := none
            expires_at_utc := none
            reseeded_at_utc := some (dt_to_iso now)
            note := some "Refresh token updated from .env (re-bootstrap detected)." },
          1)
      else .ok (fs, 0)

/-- The JSON body of a token-endpoint response (`r.json()`), over the keys
the program reads. -/
structure TokenJson where
  access_token : Option String := none
  refresh_token : Option String := none
  user_id : Option String := none
  expires_in : Option Int := none
deriving DecidableEq, Repr

/-- An HTTP response from the provider token endpoint: status code, raw text,
and the parsed JSON body (consulted only on status 200). -/
structure HttpResp where
  status : Nat
  text : String := ""
  json : TokenJson := {}
deriving DecidableEq, Repr

/-- The dict built by `refresh_fitbit_token` from a successful response
(src/fitbit_auth.py lines 137-144). -/
structure NewState where
  access_token : Option String
  refresh_token : Option String
  user_id : Option String
  expires_in : Option Int
  expires_at_utc : Option TimeStr
  refreshed_at_utc : TimeStr
deriving DecidableEq, Repr

/-- `refresh_fitbit_token` (src/fitbit_auth.py lines 122-144): raises on a
non-200 status, otherwise computes `expires_at_utc = now + expires_in` when
`expires_in` is an integer and returns the new-state dict. -/
def refresh_fitbit_token (now : Int) (resp : HttpResp) :
    Except AuthError NewState :=
  if resp.status != 200 then .error (.refreshRejected resp.status resp.text)
  else
    .ok
      { access_token := resp.json.access_token
        refresh_token := resp.json.refresh_token
        user_id := resp.json.user_id
        expires_in := resp.json.expires_in
        expires_at_utc := (resp.json.expires_in).map (fun n => dt_to_iso (now + n))
        refreshed_at_utc := dt_to_iso now }

/-- The `needs_refresh` computation (src/fitbit_auth.py lines 167-173):
starts true; when both the access token and the expiry string are truthy, it
is `now >= exp - 2 minutes` if the expiry parses, and stays true if the parse
raises. -/
def needs_refresh_calc (access : Option String) (expires_at : Option TimeStr)
    (now : Int) : Bool :=
  match expires_at with
  | some ts =>
    if truthy access && ts.truthy then
      match iso_to_dt ts with
      | some exp => decide (now ≥ exp - 120)
      | none => true
    else true
  | none => true

/-- `{**cache, **new_state}` (src/fitbit_auth.py line 188): every key of the
new-state dict overrides the cached value; keys only in the cache
(`seeded_at_utc`, `reseeded_at_utc`, `note`) survive. -/
def merge_cache (cache : TokenCache) (ns : NewState) : TokenCache :=
  { cache with
    access_token := ns.access_token
    refresh_token := ns.refresh_token
    user_id := ns.user_id
    expires_in := ns.expires_in
    expires_at_utc := ns.expires_at_utc
    refreshed_at_utc := some ns.refreshed_at_utc }

deriving instance DecidableEq for Except

/-- Outcome of the code inside the lock, together with the resulting cache
file and the effect counters local to the critical section. -/
structure CSResult where
  result : Except AuthError (String × String)
  cache : CacheFile
  netCalls : Nat
  cacheWrites : Nat
deriving DecidableEq, Repr

/-- The refresh branch of the critical section (src/fitbit_auth.py lines
180-190 together with the final check of lines 192-195): call the provider,
validate the response, patch a missing `user_id` from the cache, persist the
merged state, and fall through to the final access/user check. `fs` is the
cache file entering the branch. -/
def refresh_branch (now : Int) (resp : HttpResp) (cache : TokenCache)
    (fs : CacheFile) : CSResult :=
  match refresh_fitbit_token now resp with
  | .error e => ⟨.error e, fs, 1, 0⟩
  | .ok ns0 =>
    if !truthy ns0.access_token || !truthy ns0.refresh_token then
      ⟨.error .incompleteRefreshResponse, fs, 1, 0⟩
    else
      let ns := if truthy ns0.user_id then ns0
                else { ns0 with user_id := cache.user_id }
      let fs2 := save_cache_atomic (merge_cache cache ns)
      let access2 := ns.access_token
      let user2 := if truthy ns.user_id then ns.user_id else cache.user_id
      if !truthy access2 || !truthy user2 then
        ⟨.error .missingAccessOrUserId, fs2, 1, 1⟩
      else
        ⟨.ok (access2.getD "", user2.getD ""), fs2, 1, 1⟩

/-- The body of the `with FileLock(...)` block of `get_valid_access_token`
(src/fitbit_auth.py lines 158-195): load the cache, decide `needs_refresh`,
refresh and persist when needed, and return `(access_token, user_id)`. -/
def critical_section (now : Int) (resp : HttpResp) (fs : CacheFile) :
    CSResult :=
  match load_token_cache fs with
  | .error e => ⟨.error e, fs, 0, 0⟩
  | .ok none => ⟨.error .cacheMissingOrUnreadable, fs, 0, 0⟩
  | .ok (some cache) =>
    if cache.isEmptyDict then ⟨.error .cacheMissingOrUnreadable, fs, 0, 0⟩
    else
      let access := cache.access_token
      let user_id := cache.user_id
      let expires_at := cache.expires_at_utc
      if needs_refresh_calc access expires_at now then
        if !truthy cache.refresh_token then
          ⟨.error .missingRefreshToken, fs, 0, 0⟩
        else
          refresh_branch now resp cache fs
      else
        if !truthy access || !truthy user_id then
          ⟨.error .missingAccessOrUserId, fs, 0, 0⟩
        else
          ⟨.ok (access.getD "", user_id.getD ""), fs, 0, 0⟩

/-- `FileLock.release` (src/fitbit_auth.py lines 73-81): close and unlink the
marker; any exception is caught and ignored, so release never raises. Takes
the marker state and whether the unlink faults; returns the new marker
state. -/
def FileLock_release (unlinkFault : Bool) (marker : Bool) : Bool :=
  if unlinkFault then marker else false

/-- Outcome of one whole invocation of `get_valid_access_token`: the returned
pair or error, the final cache file, the number of token-endpoint network
calls, the number of cache-file rewrites, and whether the lock marker file is
still present at the end. -/
structure RunResult where
  result : Except AuthError (String × String)
  cache : CacheFile
  netCalls : Nat
  cacheWrites : Nat
  lockHeld : Bool
deriving DecidableEq, Repr

/-- `get_valid_access_token` (src/fitbit_auth.py lines 147-195), as one
sequential invocation (the lock marker is free, so `acquire` succeeds at
once): read the credentials, seed the cache once if absent, then run the
critical section under the lock and release the marker on every exit path of
the `with` block. `releaseFault` says whether the unlink in
`FileLock.release` faults (the fault is swallowed there). -/
def get_valid_access_token (env : DotEnv) (now : Int) (resp : HttpResp)
    (releaseFault : Bool) (fs : CacheFile) : RunResult :=
  match require_env env.FITBIT_CLIENT_ID "FITBIT_CLIENT_ID" with
  | .error e => ⟨.error e, fs, 0, 0, false⟩
  | .ok _ =>
  match require_env env.FITBIT_CLIENT_SECRET "FITBIT_CLIENT_SECRET" with
  | .error e => ⟨.error e, fs, 0, 0, false⟩
  | .ok _ =>
  match seed_cache_from_env_once env now fs with
  | .error e => ⟨.error e, fs, 0, 0, false⟩
  | .ok (fs1, w1) =>
    let cs := critical_section now resp fs1
    let marker := FileLock_release releaseFault true
    ⟨cs.result, cs.cache, cs.netCalls, w1 + cs.cacheWrites, marker⟩

/-- Program counter of one process running `get_valid_access_token`
around the lock: not yet at the lock, polling in `FileLock.acquire`, inside
the critical section, or finished (returned, raised, or timed out). -/
inductive PC where
  | start
  | waiting
  | cs
  | done
deriving DecidableEq, Repr

/-- Two processes sharing the lock marker file at `LOCK_PATH` (a run of
src/fitbit_auth.py lines 158-195 each): `marker` is whether the marker file
exists. -/
structure LockSys where
  marker : Bool
  pc1 : PC
  pc2 : PC
deriving DecidableEq, Repr

/-- Interleaving semantics of `FileLock` (src/fitbit_auth.py lines 53-88) for
two processes. `os.open(path, O_CREAT | O_EXCL | O_RDWR)` is an atomic
create-if-absent: it succeeds exactly when the marker file is absent, and
raises `FileExistsError` (the process keeps polling) otherwise; the poll loop
may instead time out and raise. Release removes the marker. -/
inductive LockStep : LockSys → LockSys → Prop where
  | begin1 (s : LockSys) : s.pc1 = .start →
      LockStep s { s with pc1 := .waiting }
  | acq1 (s : LockSys) : s.pc1 = .waiting → s.marker = false →
      LockStep s { s with marker := true, pc1 := .cs }
  | timeout1 (s : LockSys) : s.pc1 = .waiting → s.marker = true →
      LockStep s { s with pc1 := .done }
  | rel1 (s : LockSys) : s.pc1 = .cs →
      LockStep s { s with marker := false, pc1 := .done }
  | begin2 (s : LockSys) : s.pc2 = .start →
      LockStep s { s with pc2 := .waiting }
  | acq2 (s : LockSys) : s.pc2 = .waiting → s.marker = false →
      LockStep s { s with marker := true, pc2 := .cs }
  | timeout2 (s : LockSys) : s.pc2 = .waiting → s.marker = true →
      LockStep s { s with pc2 := .done }
  | rel2 (s : LockSys) : s.pc2 = .cs →
      LockStep s { s with marker := false, pc2 := .done }

/-- Initial state: no marker file, both processes before the lock. -/
def lockInit : LockSys := ⟨false, .start, .start⟩

/-- States reachable by interleaving the two processes from the start. -/
def LockReachable (s : LockSys) : Prop :=
  Relation.ReflTransGen LockStep lockInit s

/-- The inductive invariant: a process inside the critical section implies
the marker file exists, and the two processes are never both inside. -/
def LockInv (s : LockSys) : Prop :=
  (s.pc1 = .cs → s.marker = true) ∧ (s.pc2 = .cs → s.marker = true) ∧
    ¬(s.pc1 = .cs ∧ s.pc2 = .cs)

lemma lockInv_init : LockInv lockInit := by
  refine ⟨?_, ?_, ?_⟩ <;> simp [lockInit, LockInv]

lemma lockInv_step {s t : LockSys} (hs : LockInv s) (h : LockStep s t) :
    LockInv t := by
  obtain ⟨h1, h2, h3⟩ := hs
  cases h with
  | begin1 hpc =>
      refine ⟨?_, ?_, ?_⟩ <;> simp_all
  | acq1 hpc hm =>
      refine ⟨?_, ?_, ?_⟩ <;> simp_all
  | timeout1 hpc hm =>
      refine ⟨?_, ?_, ?_⟩ <;> simp_all
  | rel1 hpc =>
      refine ⟨?_, ?_, ?_⟩ <;> simp_all
  | begin2 hpc =>
      refine ⟨?_, ?_, ?_⟩ <;> simp_all
  | acq2 hpc hm =>
      refine ⟨?_, ?_, ?_⟩ <;> simp_all
  | timeout2 hpc hm =>
      refine ⟨?_, ?_, ?_⟩ <;> simp_all
  | rel2 hpc =>
      refine ⟨?_, ?_, ?_⟩ <;> simp_all

lemma lockInv_reachable {s : LockSys} (h : LockReachable s) : LockInv s := by
  induction h with
  | refl => exact lockInv_init
  | tail _ hstep ih => exact lockInv_step ih hstep

end LifeOps

namespace LifeOps

/-! Helper lemmas about the embedded operations. -/

lemma require_env_ok {v : Option String} (h : truthy v = true) (name : String) :
    require_env v name = .ok (v.getD "") := by
  simp [require_env, h]

lemma truthy_some {a : String} (h : a ≠ "") : truthy (some a) = true := by
  have he : a.isEmpty = false := by
    rw [← Bool.not_eq_true]
    intro hempty
    exact h ((String.isEmpty_iff a).mp hempty)
  simp [truthy, he]

lemma existsOnDisk_valid (c : TokenCache) :
    (CacheFile.valid c).existsOnDisk = true := rfl

lemma seed_skip {env : DotEnv} {now : Int} {fs : CacheFile}
    (h : fs.existsOnDisk = true) :
    seed_cache_from_env_once env now fs = .ok (fs, 0) := by
  simp [seed_cache_from_env_once, h]

lemma run_exists_cache (env : DotEnv) (now : Int) (resp : HttpResp)
    (fault : Bool) (fs : CacheFile)
    (hid : truthy env.FITBIT_CLIENT_ID = true)
    (hsec : truthy env.FITBIT_CLIENT_SECRET = true)
    (hfs : fs.existsOnDisk = true) :
    get_valid_access_token env now resp fault fs =
      ⟨(critical_section now resp fs).result, (critical_section now resp fs).cache,
       (critical_section now resp fs).netCalls, (critical_section now resp fs).cacheWrites,
       FileLock_release fault true⟩ := by
  simp [get_valid_access_token, require_env_ok hid, require_env_ok hsec, seed_skip hfs]

lemma refresh_fitbit_token_ok {now : Int} {resp : HttpResp} (hst : resp.status = 200) :
    refresh_fitbit_token now resp =
      .ok { access_token := resp.json.access_token
            refresh_token := resp.json.refresh_token
            user_id := resp.json.user_id
            expires_in := resp.json.expires_in
            expires_at_utc := (resp.json.expires_in).map (fun n => dt_to_iso (now + n))
            refreshed_at_utc := dt_to_iso now } := by
  simp [refresh_fitbit_token, hst]

lemma refresh_branch_ok_effects {now : Int} {resp : HttpResp} {cache : TokenCache}
    {fs : CacheFile}
    (hst : resp.status = 200)
    (hac : truthy resp.json.access_token = true)
    (hrf : truthy resp.json.refresh_token = true) :
    (refresh_branch now resp cache fs).cache.refreshToken = resp.json.refresh_token ∧
    (refresh_branch now resp cache fs).netCalls = 1 ∧
    (refresh_branch now resp cache fs).cacheWrites = 1 := by
  simp only [refresh_branch, refresh_fitbit_token_ok hst, hac, hrf]
  simp only [Bool.not_true, Bool.or_self, Bool.false_or, Bool.or_false]
  split
  · simp_all
  · (repeat' split) <;> simp [CacheFile.refreshToken, save_cache_atomic, merge_cache]

lemma refresh_branch_netCalls (now : Int) (resp : HttpResp) (cache : TokenCache)
    (fs : CacheFile) : (refresh_branch now resp cache fs).netCalls = 1 := by
  simp only [refresh_branch]
  (repeat' split) <;> rfl

lemma refresh_branch_result_eq (now : Int) (resp : HttpResp) (c1 c2 : TokenCache)
    (fs1 fs2 : CacheFile) (hu : c1.user_id = c2.user_id) :
    (refresh_branch now resp c1 fs1).result = (refresh_branch now resp c2 fs2).result ∧
    (refresh_branch now resp c1 fs1).netCalls = (refresh_branch now resp c2 fs2).netCalls ∧
    (refresh_branch now resp c1 fs1).cacheWrites
      = (refresh_branch now resp c2 fs2).cacheWrites := by
  simp only [refresh_branch, hu]
  (repeat' split) <;> simp_all

lemma critical_section_valid_read {now : Int} {resp : HttpResp} {c : TokenCache}
    (hne : c.isEmptyDict = false)
    (hnr : needs_refresh_calc c.access_token c.expires_at_utc now = false)
    (hac : truthy c.access_token = true)
    (hus : truthy c.user_id = true) :
    critical_section now resp (.valid c) =
      ⟨.ok (c.access_token.getD "", c.user_id.getD ""), .valid c, 0, 0⟩ := by
  simp [critical_section, load_token_cache, hne, hnr, hac, hus]

lemma critical_section_refresh_rejected {now : Int} {resp : HttpResp} {c : TokenCache}
    (hne : c.isEmptyDict = false)
    (hnr : needs_refresh_calc c.access_token c.expires_at_utc now = true)
    (hrt : truthy c.refresh_token = true)
    (hst : resp.status ≠ 200) :
    critical_section now resp (.valid c) =
      ⟨.error (.refreshRejected resp.status resp.text), .valid c, 1, 0⟩ := by
  simp [critical_section, load_token_cache, hne, hnr, hrt, refresh_branch,
    refresh_fitbit_token, hst]

lemma critical_section_refresh {now : Int} {resp : HttpResp} {c : TokenCache}
    (hne : c.isEmptyDict = false)
    (hnr : needs_refresh_calc c.access_token c.expires_at_utc now = true)
    (hrt : truthy c.refresh_token = true) :
    critical_section now resp (.valid c) = refresh_branch now resp c (.valid c) := by
  simp [critical_section, load_token_cache, hne, hnr, hrt]

lemma critical_section_bounds (now : Int) (resp : HttpResp) (fs : CacheFile) :
    (critical_section now resp fs).netCalls ≤ 1 ∧
    (critical_section now resp fs).cacheWrites ≤ 1 := by
  simp only [critical_section, refresh_branch]
  (repeat' split) <;> simp

lemma seed_writes_le {env : DotEnv} {now : Int} {fs fs1 : CacheFile} {w1 : Nat}
    (h : seed_cache_from_env_once env now fs = .ok (fs1, w1)) :
    w1 ≤ if fs.existsOnDisk then 0 else 1 := by
  unfold seed_cache_from_env_once at h
  split at h
  · simp_all
  · split at h <;> simp_all

lemma needs_refresh_invalid (access : Option String) (s : String) (now : Int) :
    needs_refresh_calc access (some (TimeStr.invalid s)) now = true := by
  simp only [needs_refresh_calc, iso_to_dt]
  split <;> rfl

lemma needs_refresh_none (access : Option String) (now : Int) :
    needs_refresh_calc access none now = true := rfl

lemma run_refresh_netCalls (env : DotEnv) (now : Int) (resp : HttpResp) (fault : Bool)
    (c : TokenCache)
    (hid : truthy env.FITBIT_CLIENT_ID = true)
    (hsec : truthy env.FITBIT_CLIENT_SECRET = true)
    (hne : c.isEmptyDict = false)
    (hnr : needs_refresh_calc c.access_token c.expires_at_utc now = true)
    (hrt : truthy c.refresh_token = true) :
    (get_valid_access_token env now resp fault (CacheFile.valid c)).netCalls = 1 := by
  rw [run_exists_cache env now resp fault (CacheFile.valid c) hid hsec rfl,
    critical_section_refresh hne hnr hrt]
  exact refresh_branch_netCalls now resp c (CacheFile.valid c)

lemma run_valid_read (env : DotEnv) (now : Int) (resp : HttpResp) (fault : Bool)
    (c : TokenCache)
    (hid : truthy env.FITBIT_CLIENT_ID = true)
    (hsec : truthy env.FITBIT_CLIENT_SECRET = true)
    (hne : c.isEmptyDict = false)
    (hnr : needs_refresh_calc c.access_token c.expires_at_utc now = false)
    (hac : truthy c.access_token = true)
    (hus : truthy c.user_id = true) :
    get_valid_access_token env now resp fault (CacheFile.valid c)
      = ⟨.ok (c.access_token.getD "", c.user_id.getD ""), .valid c, 0, 0,
         FileLock_release fault true⟩ := by
  rw [run_exists_cache env now resp fault (CacheFile.valid c) hid hsec rfl,
    critical_section_valid_read hne hnr hac hus]

end LifeOps

namespace LifeOps

/-! The claims. -/

/-- Claim C1: over a loaded cache whose `expires_at_utc`, when present, parses
as a timestamp, `needs_refresh` is true iff the cached access token is absent
(falsy), or the expiry string is absent, or the current UTC time is at least
the expiry minus the fixed 2-minute (120 s) safety margin; in particular an
expiry of now + 90 s triggers a refresh and an expiry of now + 300 s (with a
present access token) does not. -/
theorem C1_needs_refresh_margin (access : Option String) (ea : Option TimeStr)
    (now : Int)
    (hparse : ∀ s, ea = some s → ∃ u, s = TimeStr.valid u) :
    (needs_refresh_calc access ea now = true ↔
      (truthy access = false ∨ ea = none ∨
        ∃ u, ea = some (TimeStr.valid u) ∧ now ≥ u - 120)) ∧
    needs_refresh_calc access (some (TimeStr.valid (now + 90))) now = true ∧
    (truthy access = true →
      needs_refresh_calc access (some (TimeStr.valid (now + 300))) now = false) := by
  refine ⟨?_, ?_, ?_⟩
  · cases ea with
    | none => simp [needs_refresh_calc]
    | some ts =>
      obtain ⟨u, rfl⟩ := hparse ts rfl
      cases hacc : truthy access with
      | false => simp [needs_refresh_calc, TimeStr.truthy, hacc]
      | true =>
        simp [needs_refresh_calc, TimeStr.truthy, hacc, iso_to_dt]
  · cases hacc : truthy access with
    | false => simp [needs_refresh_calc, TimeStr.truthy, hacc]
    | true => simp [needs_refresh_calc, TimeStr.truthy, hacc, iso_to_dt]
  · intro hacc
    simp [needs_refresh_calc, TimeStr.truthy, hacc, iso_to_dt]

/-- Witness for C1 at a concrete input (access token "A", expiry instant 100,
current time 0). -/
theorem C1_witness :
    (needs_refresh_calc (some "A") (some (TimeStr.valid 100)) 0 = true ↔
      (truthy (some "A") = false ∨ (some (TimeStr.valid 100) : Option TimeStr) = none ∨
        ∃ u, (some (TimeStr.valid 100) : Option TimeStr) = some (TimeStr.valid u) ∧
          (0 : Int) ≥ u - 120)) ∧
    needs_refresh_calc (some "A") (some (TimeStr.valid (0 + 90))) 0 = true ∧
    (truthy (some "A") = true →
      needs_refresh_calc (some "A") (some (TimeStr.valid (0 + 300))) 0 = false) :=
  C1_needs_refresh_margin (some "A") (some (TimeStr.valid 100)) 0
    (by intro s hs; rw [Option.some_inj] at hs; exact ⟨100, hs.symm⟩)

/-- Claim C2, counterexample: on a first run (no cache file), the invocation
seeds the cache before the provider rejects the refresh with HTTP 400, so the
call fails with the refresh-rejected error but the cache file is NOT
unchanged from its pre-invocation state (it did not exist before and exists
after). -/
theorem C2_counterexample :
    (get_valid_access_token ⟨some "id", some "sec", some "R0", none⟩ 0
        ⟨400, "Bad Request", {}⟩ false CacheFile.absent).result
      = .error (.refreshRejected 400 "Bad Request") ∧
    (get_valid_access_token ⟨some "id", some "sec", some "R0", none⟩ 0
        ⟨400, "Bad Request", {}⟩ false CacheFile.absent).cache
      ≠ CacheFile.absent := by
  refine ⟨rfl, ?_⟩
  decide

/-- Claim C2 (amended): for every invocation over an already existing, parsed
cache record that reaches the refresh call, a non-success HTTP status from
the provider fails the call with the refresh-rejected error carrying the
status and body, and the persisted cache file is byte-for-byte unchanged (no
write is performed in the invocation). -/
theorem C2_rejected_refresh_no_write (env : DotEnv) (now : Int) (resp : HttpResp)
    (fault : Bool) (c : TokenCache)
    (hid : truthy env.FITBIT_CLIENT_ID = true)
    (hsec : truthy env.FITBIT_CLIENT_SECRET = true)
    (hne : c.isEmptyDict = false)
    (hnr : needs_refresh_calc c.access_token c.expires_at_utc now = true)
    (hrt : truthy c.refresh_token = true)
    (hst : resp.status ≠ 200) :
    (get_valid_access_token env now resp fault (CacheFile.valid c)).result
        = .error (.refreshRejected resp.status resp.text) ∧
    (get_valid_access_token env now resp fault (CacheFile.valid c)).cache
        = CacheFile.valid c ∧
    (get_valid_access_token env now resp fault (CacheFile.valid c)).cacheWrites = 0 := by
  rw [run_exists_cache env now resp fault (CacheFile.valid c) hid hsec rfl,
    critical_section_refresh_rejected hne hnr hrt hst]
  exact ⟨rfl, rfl, rfl⟩

/-- Witness for C2 (amended) at a concrete input: an existing cache with an
expired (absent-expiry) token and a provider answering HTTP 400. -/
theorem C2_witness :
    ((get_valid_access_token ⟨some "id", some "sec", none, none⟩ 0 ⟨400, "nope", {}⟩ false (CacheFile.valid { refresh_token := some "R", access_token := some "A", user_id := some "U", expires_at_utc := none })).result = .error (.refreshRejected 400 "nope")) ∧
    ((get_valid_access_token ⟨some "id", some "sec", none, none⟩ 0 ⟨400, "nope", {}⟩ false (CacheFile.valid { refresh_token := some "R", access_token := some "A", user_id := some "U", expires_at_utc := none })).cache = CacheFile.valid { refresh_token := some "R", access_token := some "A", user_id := some "U", expires_at_utc := none }) ∧
    ((get_valid_access_token ⟨some "id", some "sec", none, none⟩ 0 ⟨400, "nope", {}⟩ false (CacheFile.valid { refresh_token := some "R", access_token := some "A", user_id := some "U", expires_at_utc := none })).cacheWrites = 0) :=
  C2_rejected_refresh_no_write ⟨some "id", some "sec", none, none⟩ 0 ⟨400, "nope", {}⟩
    false { refresh_token := some "R", access_token := some "A", user_id := some "U", expires_at_utc := none }
    (by decide) (by decide) (by decide) (by decide) (by decide) (by decide)

/-- Claim C3: starting with no cache file, if the bootstrap refresh token is
absent from the environment the invocation fails with the missing-env error
for FITBIT_REFRESH_TOKEN; with bootstrap token "R0", seeding writes (one
write) a cache whose refresh token is "R0" and whose access token and expiry
are absent, and an invocation over that seeded cache (where `needs_refresh`
is true) performs exactly one network refresh call. -/
theorem C3_seed_bootstrap (env : DotEnv) (now : Int) (resp : HttpResp) (fault : Bool)
    (hid : truthy env.FITBIT_CLIENT_ID = true)
    (hsec : truthy env.FITBIT_CLIENT_SECRET = true) :
    (truthy env.FITBIT_REFRESH_TOKEN = false →
      (get_valid_access_token env now resp fault CacheFile.absent).result
        = .error (.missingEnv "FITBIT_REFRESH_TOKEN")) ∧
    (env.FITBIT_REFRESH_TOKEN = some "R0" →
      seed_cache_from_env_once env now CacheFile.absent
        = .ok (CacheFile.valid { refresh_token := some "R0", access_token := none, user_id := env.FITBIT_USER_ID, expires_at_utc := none, seeded_at_utc := some (dt_to_iso now), note := some "Seeded from .env once. From now on, token cache is source of truth." }, 1) ∧
      (get_valid_access_token env now resp fault (CacheFile.valid { refresh_token := some "R0", access_token := none, user_id := env.FITBIT_USER_ID, expires_at_utc := none, seeded_at_utc := some (dt_to_iso now), note := some "Seeded from .env once. From now on, token cache is source of truth." })).netCalls = 1) := by
  constructor
  · intro h
    simp [get_valid_access_token, require_env, hid, hsec,
      seed_cache_from_env_once, CacheFile.existsOnDisk, h]
  · intro h
    have hre : require_env (some "R0") "FITBIT_REFRESH_TOKEN" = .ok "R0" := by decide
    constructor
    · simp [seed_cache_from_env_once, CacheFile.existsOnDisk, h, hre, save_cache_atomic]
    · exact run_refresh_netCalls env now resp fault _ hid hsec rfl rfl rfl

/-- Witness for C3 at a concrete environment with bootstrap token "R0". -/
theorem C3_witness :
    (truthy (⟨some "id", some "sec", some "R0", none⟩ : DotEnv).FITBIT_REFRESH_TOKEN = false →
      (get_valid_access_token ⟨some "id", some "sec", some "R0", none⟩ 0 ⟨500, "", {}⟩ false CacheFile.absent).result
        = .error (.missingEnv "FITBIT_REFRESH_TOKEN")) ∧
    ((⟨some "id", some "sec", some "R0", none⟩ : DotEnv).FITBIT_REFRESH_TOKEN = some "R0" →
      seed_cache_from_env_once ⟨some "id", some "sec", some "R0", none⟩ 0 CacheFile.absent
        = .ok (CacheFile.valid { refresh_token := some "R0", access_token := none, user_id := (⟨some "id", some "sec", some "R0", none⟩ : DotEnv).FITBIT_USER_ID, expires_at_utc := none, seeded_at_utc := some (dt_to_iso 0), note := some "Seeded from .env once. From now on, token cache is source of truth." }, 1) ∧
      (get_valid_access_token ⟨some "id", some "sec", some "R0", none⟩ 0 ⟨500, "", {}⟩ false (CacheFile.valid { refresh_token := some "R0", access_token := none, user_id := (⟨some "id", some "sec", some "R0", none⟩ : DotEnv).FITBIT_USER_ID, expires_at_utc := none, seeded_at_utc := some (dt_to_iso 0), note := some "Seeded from .env once. From now on, token cache is source of truth." })).netCalls = 1) :=
  C3_seed_bootstrap ⟨some "id", some "sec", some "R0", none⟩ 0 ⟨500, "", {}⟩ false
    (by decide) (by decide)

/-- Claim C4: the cache save serializes to the temporary file without
touching the canonical file (so a crash between serialization and rename
leaves the previous state intact), the completed save atomically replaces
the canonical file with the serialized record, and after a successful
validated refresh the persisted cache's refresh token equals the new value
from the provider response. -/
theorem C4_atomic_save (tok : TokenCache) (fs : TokenFS) (env : DotEnv) (now : Int)
    (resp : HttpResp) (fault : Bool) (c : TokenCache)
    (hid : truthy env.FITBIT_CLIENT_ID = true)
    (hsec : truthy env.FITBIT_CLIENT_SECRET = true)
    (hne : c.isEmptyDict = false)
    (hnr : needs_refresh_calc c.access_token c.expires_at_utc now = true)
    (hrt : truthy c.refresh_token = true)
    (hst : resp.status = 200)
    (hac : truthy resp.json.access_token = true)
    (hrf : truthy resp.json.refresh_token = true) :
    (save_write_tmp tok fs).canonical = fs.canonical ∧
    save_token_cache tok fs = ⟨CacheFile.valid tok, none⟩ ∧
    (get_valid_access_token env now resp fault (CacheFile.valid c)).cache.refreshToken
      = resp.json.refresh_token := by
  refine ⟨rfl, rfl, ?_⟩
  rw [run_exists_cache env now resp fault (CacheFile.valid c) hid hsec rfl,
    critical_section_refresh hne hnr hrt]
  exact (refresh_branch_ok_effects hst hac hrf).1

/-- Witness for C4 at concrete inputs: a save of a fresh record over an empty
directory, and a successful refresh whose response carries refresh token
"abc2". -/
theorem C4_witness :
    ((save_write_tmp { refresh_token := some "N" } ⟨CacheFile.absent, none⟩).canonical = (⟨CacheFile.absent, none⟩ : TokenFS).canonical) ∧
    (save_token_cache { refresh_token := some "N" } ⟨CacheFile.absent, none⟩ = ⟨CacheFile.valid { refresh_token := some "N" }, none⟩) ∧
    ((get_valid_access_token ⟨some "id", some "sec", none, none⟩ 0 ⟨200, "", { access_token := some "T1", refresh_token := some "abc2", user_id := some "U1", expires_in := some 3600 }⟩ false (CacheFile.valid { refresh_token := some "R", access_token := none, user_id := some "U", expires_at_utc := none })).cache.refreshToken = some "abc2") :=
  C4_atomic_save { refresh_token := some "N" } ⟨CacheFile.absent, none⟩
    ⟨some "id", some "sec", none, none⟩ 0
    ⟨200, "", { access_token := some "T1", refresh_token := some "abc2", user_id := some "U1", expires_in := some 3600 }⟩ false
    { refresh_token := some "R", access_token := none, user_id := some "U", expires_at_utc := none }
    (by decide) (by decide) (by decide) (by decide) (by decide) rfl (by decide) (by decide)

end LifeOps

namespace LifeOps

/-- Claim C5: in the two-process interleaving semantics of the file lock, no
reachable state has both processes inside the critical section (so no two
refreshes against the same refresh token are in flight concurrently and no
two cache writes of the locked sections interleave), and while one process is
inside the critical section no single step can bring the other into it — it
stays blocked polling in acquire until the first releases the marker. -/
theorem C5_lock_mutual_exclusion (s : LockSys) (h : LockReachable s) :
    ¬(s.pc1 = PC.cs ∧ s.pc2 = PC.cs) ∧
    (∀ t, s.pc1 = PC.cs → LockStep s t → t.pc2 ≠ PC.cs) := by
  have inv := lockInv_reachable h
  refine ⟨inv.2.2, ?_⟩
  intro t hcs hstep
  have hm := inv.1 hcs
  have hp2 : s.pc2 ≠ PC.cs := fun hc => inv.2.2 ⟨hcs, hc⟩
  cases hstep <;> simp_all

/-- Witness for C5 at the concrete reachable state in which process 1 holds
the lock inside the critical section while process 2 is polling. -/
theorem C5_witness :
    ¬((⟨true, PC.cs, PC.waiting⟩ : LockSys).pc1 = PC.cs ∧
        (⟨true, PC.cs, PC.waiting⟩ : LockSys).pc2 = PC.cs) ∧
    (∀ t, (⟨true, PC.cs, PC.waiting⟩ : LockSys).pc1 = PC.cs →
        LockStep ⟨true, PC.cs, PC.waiting⟩ t → t.pc2 ≠ PC.cs) :=
  C5_lock_mutual_exclusion ⟨true, PC.cs, PC.waiting⟩
    (Relation.ReflTransGen.tail
      (Relation.ReflTransGen.tail
        (Relation.ReflTransGen.tail Relation.ReflTransGen.refl
          (LockStep.begin1 lockInit rfl))
        (LockStep.acq1 ⟨false, PC.waiting, PC.start⟩ rfl rfl))
      (LockStep.begin2 ⟨true, PC.cs, PC.start⟩ rfl))

/-- Claim C6, counterexample: a first-run invocation (cache absent, provider
succeeding) rewrites the token cache file twice — once by the seeding step
and once after the refresh — contradicting "at most one rewrite of the token
cache file per invocation". -/
theorem C6_counterexample :
    (get_valid_access_token ⟨some "id", some "sec", some "R0", none⟩ 0 ⟨200, "", { access_token := some "T1", refresh_token := some "abc2", user_id := some "U1", expires_in := some 3600 }⟩ false CacheFile.absent).cacheWrites = 2 := rfl

/-- Claim C6 (amended): every invocation performs at most one network call to
the token endpoint; it performs at most one cache rewrite when a cache file
already exists at the start, and at most two (one seeding write plus one
refresh write) when the cache file is absent. -/
theorem C6_effect_bounds (env : DotEnv) (now : Int) (resp : HttpResp) (fault : Bool)
    (fs : CacheFile) :
    (get_valid_access_token env now resp fault fs).netCalls ≤ 1 ∧
    (get_valid_access_token env now resp fault fs).cacheWrites
      ≤ (if fs.existsOnDisk then 1 else 2) := by
  unfold get_valid_access_token
  split
  · constructor <;> simp
  · split
    · constructor <;> simp
    · split
      · constructor <;> simp
      · next fs1 w1 heq =>
        refine ⟨?_, ?_⟩
        · simpa using (critical_section_bounds now resp fs1).1
        · have h1 := seed_writes_le heq
          have h2 := (critical_section_bounds now resp fs1).2
          cases hex : fs.existsOnDisk <;> simp [hex] at h1 ⊢ <;> omega

/-- Claim C7, counterexample: a cache record that exists on disk but cannot
be parsed makes the pull-job load operation return `none` — the same value as
for an absent file — instead of failing with a cache-corrupt error. -/
theorem C7_counterexample :
    (CacheFile.corrupt "not json").existsOnDisk = true ∧
    load_token_cache_pull (CacheFile.corrupt "not json") = none ∧
    load_token_cache_pull CacheFile.absent = none :=
  ⟨rfl, rfl, rfl⟩

/-- Claim C7 (amended): the fitbit_auth load operation returns absent exactly
for a missing file and fails with the cache-corrupt error (uncaught
`json.loads` exception) on an existing unparseable record; the pull-job
variants of load, however, swallow the parse failure and return absent. -/
theorem C7_load_contract :
    load_token_cache CacheFile.absent = .ok none ∧
    (∀ raw, load_token_cache (CacheFile.corrupt raw) = .error (.cacheCorrupt raw)) ∧
    (∀ c, load_token_cache (CacheFile.valid c) = .ok (some c)) ∧
    (∀ raw, load_token_cache_pull (CacheFile.corrupt raw) = none) ∧
    load_token_cache_pull CacheFile.absent = none :=
  ⟨rfl, fun _ => rfl, fun _ => rfl, fun _ => rfl, rfl⟩

/-- Claim C8: the outcome of an invocation (result, final cache, effect
counts) is identical whether or not the unlink inside `FileLock.release`
faults — the release failure is swallowed and never masks the protected
operation — and with a non-faulting release the lock marker is gone at the
end of every invocation, on success and on every failure path alike. -/
theorem C8_release_on_all_paths (env : DotEnv) (now : Int) (resp : HttpResp)
    (fs : CacheFile) (fault : Bool) :
    (get_valid_access_token env now resp fault fs).result
      = (get_valid_access_token env now resp false fs).result ∧
    (get_valid_access_token env now resp fault fs).cache
      = (get_valid_access_token env now resp false fs).cache ∧
    (get_valid_access_token env now resp fault fs).netCalls
      = (get_valid_access_token env now resp false fs).netCalls ∧
    (get_valid_access_token env now resp fault fs).cacheWrites
      = (get_valid_access_token env now resp false fs).cacheWrites ∧
    (get_valid_access_token env now resp false fs).lockHeld = false := by
  unfold get_valid_access_token
  (repeat' split) <;> simp_all [FileLock_release]

/-- Claim C9: over a cache whose access token and user id are present and
whose expiry is beyond the 2-minute margin at both call times, an invocation
returns the cached pair with zero network calls and zero cache writes,
leaves the cache file unchanged, and an immediately subsequent invocation
over the resulting cache returns the identical pair, again with zero network
calls. -/
theorem C9_idempotent_valid_read (env : DotEnv) (now1 now2 : Int)
    (resp1 resp2 : HttpResp) (f1 f2 : Bool) (c : TokenCache) (a u : String) (t : Int)
    (hid : truthy env.FITBIT_CLIENT_ID = true)
    (hsec : truthy env.FITBIT_CLIENT_SECRET = true)
    (hacc : c.access_token = some a) (ha : a ≠ "")
    (huse : c.user_id = some u) (hu : u ≠ "")
    (hexp : c.expires_at_utc = some (TimeStr.valid t))
    (h1 : now1 < t - 120) (h2 : now2 < t - 120) :
    (get_valid_access_token env now1 resp1 f1 (CacheFile.valid c)).result = .ok (a, u) ∧
    (get_valid_access_token env now1 resp1 f1 (CacheFile.valid c)).netCalls = 0 ∧
    (get_valid_access_token env now1 resp1 f1 (CacheFile.valid c)).cacheWrites = 0 ∧
    (get_valid_access_token env now1 resp1 f1 (CacheFile.valid c)).cache = CacheFile.valid c ∧
    (get_valid_access_token env now2 resp2 f2
      (get_valid_access_token env now1 resp1 f1 (CacheFile.valid c)).cache).result = .ok (a, u) ∧
    (get_valid_access_token env now2 resp2 f2
      (get_valid_access_token env now1 resp1 f1 (CacheFile.valid c)).cache).netCalls = 0 := by
  have hne : c.isEmptyDict = false := by simp [TokenCache.isEmptyDict, hacc]
  have hac : truthy c.access_token = true := by rw [hacc]; exact truthy_some ha
  have hus : truthy c.user_id = true := by rw [huse]; exact truthy_some hu
  have hnr1 : needs_refresh_calc c.access_token c.expires_at_utc now1 = false := by
    rw [hexp]
    simp [needs_refresh_calc, hac, TimeStr.truthy, iso_to_dt]
    omega
  have hnr2 : needs_refresh_calc c.access_token c.expires_at_utc now2 = false := by
    rw [hexp]
    simp [needs_refresh_calc, hac, TimeStr.truthy, iso_to_dt]
    omega
  rw [run_valid_read env now1 resp1 f1 c hid hsec hne hnr1 hac hus]
  rw [show (⟨.ok (c.access_token.getD "", c.user_id.getD ""), .valid c, 0, 0,
      FileLock_release f1 true⟩ : RunResult).cache = CacheFile.valid c from rfl]
  rw [run_valid_read env now2 resp2 f2 c hid hsec hne hnr2 hac hus]
  simp [hacc, huse]

/-- Witness for C9 at a concrete cache (access token "A", user "U", expiry
1000) read at times 0 and 5. -/
theorem C9_witness :
    ((get_valid_access_token ⟨some "id", some "sec", none, none⟩ 0 ⟨500, "", {}⟩ false (CacheFile.valid { refresh_token := none, access_token := some "A", user_id := some "U", expires_at_utc := some (TimeStr.valid 1000) })).result = .ok ("A", "U")) ∧
    ((get_valid_access_token ⟨some "id", some "sec", none, none⟩ 0 ⟨500, "", {}⟩ false (CacheFile.valid { refresh_token := none, access_token := some "A", user_id := some "U", expires_at_utc := some (TimeStr.valid 1000) })).netCalls = 0) ∧
    ((get_valid_access_token ⟨some "id", some "sec", none, none⟩ 0 ⟨500, "", {}⟩ false (CacheFile.valid { refresh_token := none, access_token := some "A", user_id := some "U", expires_at_utc := some (TimeStr.valid 1000) })).cacheWrites = 0) ∧
    ((get_valid_access_token ⟨some "id", some "sec", none, none⟩ 0 ⟨500, "", {}⟩ false (CacheFile.valid { refresh_token := none, access_token := some "A", user_id := some "U", expires_at_utc := some (TimeStr.valid 1000) })).cache = CacheFile.valid { refresh_token := none, access_token := some "A", user_id := some "U", expires_at_utc := some (TimeStr.valid 1000) }) ∧
    ((get_valid_access_token ⟨some "id", some "sec", none, none⟩ 5 ⟨500, "", {}⟩ false (get_valid_access_token ⟨some "id", some "sec", none, none⟩ 0 ⟨500, "", {}⟩ false (CacheFile.valid { refresh_token := none, access_token := some "A", user_id := some "U", expires_at_utc := some (TimeStr.valid 1000) })).cache).result = .ok ("A", "U")) ∧
    ((get_valid_access_token ⟨some "id", some "sec", none, none⟩ 5 ⟨500, "", {}⟩ false (get_valid_access_token ⟨some "id", some "sec", none, none⟩ 0 ⟨500, "", {}⟩ false (CacheFile.valid { refresh_token := none, access_token := some "A", user_id := some "U", expires_at_utc := some (TimeStr.valid 1000) })).cache).netCalls = 0) :=
  C9_idempotent_valid_read ⟨some "id", some "sec", none, none⟩ 0 5 ⟨500, "", {}⟩ ⟨500, "", {}⟩
    false false { refresh_token := none, access_token := some "A", user_id := some "U", expires_at_utc := some (TimeStr.valid 1000) }
    "A" "U" 1000 (by decide) (by decide) rfl (by decide) rfl (by decide) rfl (by decide) (by decide)

/-- Claim C10: a cache whose expiry string is present but unparseable does
not make the invocation fail on the parse: `needs_refresh` is true in the
parse-failure branch, and the invocation's outcome, network-call count and
cache-write count are exactly those of the same cache with the expiry
absent. -/
theorem C10_unparseable_expiry (env : DotEnv) (now : Int) (resp : HttpResp)
    (fault : Bool) (c : TokenCache) (s : String)
    (hid : truthy env.FITBIT_CLIENT_ID = true)
    (hsec : truthy env.FITBIT_CLIENT_SECRET = true)
    (hne : ({ c with expires_at_utc := none } : TokenCache).isEmptyDict = false) :
    needs_refresh_calc c.access_token (some (TimeStr.invalid s)) now = true ∧
    (get_valid_access_token env now resp fault
        (CacheFile.valid { c with expires_at_utc := some (TimeStr.invalid s) })).result
      = (get_valid_access_token env now resp fault
        (CacheFile.valid { c with expires_at_utc := none })).result ∧
    (get_valid_access_token env now resp fault
        (CacheFile.valid { c with expires_at_utc := some (TimeStr.invalid s) })).netCalls
      = (get_valid_access_token env now resp fault
        (CacheFile.valid { c with expires_at_utc := none })).netCalls ∧
    (get_valid_access_token env now resp fault
        (CacheFile.valid { c with expires_at_utc := some (TimeStr.invalid s) })).cacheWrites
      = (get_valid_access_token env now resp fault
        (CacheFile.valid { c with expires_at_utc := none })).cacheWrites := by
  have hneA : ({ c with expires_at_utc := some (TimeStr.invalid s) } : TokenCache).isEmptyDict = false := by
    simp [TokenCache.isEmptyDict]
  refine ⟨needs_refresh_invalid c.access_token s now, ?_⟩
  rw [run_exists_cache env now resp fault
      (CacheFile.valid { c with expires_at_utc := some (TimeStr.invalid s) }) hid hsec rfl,
    run_exists_cache env now resp fault
      (CacheFile.valid { c with expires_at_utc := none }) hid hsec rfl]
  cases hrt : truthy c.refresh_token with
  | false =>
    simp [critical_section, load_token_cache, hneA, hne, needs_refresh_invalid,
      needs_refresh_none, hrt]
  | true =>
    rw [critical_section_refresh hneA (needs_refresh_invalid c.access_token s now) hrt,
      critical_section_refresh hne (needs_refresh_none c.access_token now) hrt]
    exact refresh_branch_result_eq now resp _ _ _ _ rfl

/-- Witness for C10 at a concrete cache holding only a refresh token, with
the unparseable expiry string "garbage". -/
theorem C10_witness :
    needs_refresh_calc ({ refresh_token := some "R" } : TokenCache).access_token (some (TimeStr.invalid "garbage")) 0 = true ∧
    ((get_valid_access_token ⟨some "id", some "sec", none, none⟩ 0 ⟨500, "", {}⟩ false (CacheFile.valid { ({ refresh_token := some "R" } : TokenCache) with expires_at_utc := some (TimeStr.invalid "garbage") })).result
      = (get_valid_access_token ⟨some "id", some "sec", none, none⟩ 0 ⟨500, "", {}⟩ false (CacheFile.valid { ({ refresh_token := some "R" } : TokenCache) with expires_at_utc := none })).result) ∧
    ((get_valid_access_token ⟨some "id", some "sec", none, none⟩ 0 ⟨500, "", {}⟩ false (CacheFile.valid { ({ refresh_token := some "R" } : TokenCache) with expires_at_utc := some (TimeStr.invalid "garbage") })).netCalls
      = (get_valid_access_token ⟨some "id", some "sec", none, none⟩ 0 ⟨500, "", {}⟩ false (CacheFile.valid { ({ refresh_token := some "R" } : TokenCache) with expires_at_utc := none })).netCalls) ∧
    ((get_valid_access_token ⟨some "id", some "sec", none, none⟩ 0 ⟨500, "", {}⟩ false (CacheFile.valid { ({ refresh_token := some "R" } : TokenCache) with expires_at_utc := some (TimeStr.invalid "garbage") })).cacheWrites
      = (get_valid_access_token ⟨some "id", some "sec", none, none⟩ 0 ⟨500, "", {}⟩ false (CacheFile.valid { ({ refresh_token := some "R" } : TokenCache) with expires_at_utc := none })).cacheWrites) :=
  C10_unparseable_expiry ⟨some "id", some "sec", none, none⟩ 0 ⟨500, "", {}⟩ false
    { refresh_token := some "R" } "garbage" (by decide) (by decide) (by decide)

end LifeOps
